import Mathlib

/-!
Verification development for the ROI calculator repository.

The funnel calculation engine (`calcROI` in `src/app/page.tsx`, lines 85-172),
the display formatters (`fmtMoney`, `fmtNum`, `pct`, lines 67-81), the local
cache reader (`loadCache`, lines 269-275) and the research endpoint handler
(`POST` in `src/app/api/research/route.ts`) are embedded shallowly.  JavaScript
numbers are modelled as rationals (ℚ); the arithmetic of the engine is exact
multiplicative funnel arithmetic, so ℚ mirrors it faithfully.  Fallible
operations (JSON parsing, HTTP handling) are modelled with `Option` and
explicit result types.
-/

-- ══════════════════════ formatting helpers (page.tsx 67-81) ══════════════════

/-- Model of JavaScript `Math.round`: round half toward positive infinity. -/
def jsRound (q : ℚ) : ℤ := Int.floor (q + 1 / 2)

/-- Model of JavaScript `Number.prototype.toFixed(1)`: one decimal digit,
ties rounded to the larger value. -/
def jsToFixed1 (q : ℚ) : String :=
  let n : ℤ := Int.floor (q * 10 + 1 / 2)
  let sign := if n < 0 then "-" else ""
  sign ++ toString (n.natAbs / 10) ++ "." ++ toString (n.natAbs % 10)

/-- Model of JavaScript `Number.prototype.toFixed(0)`: nearest integer,
ties rounded to the larger value. -/
def jsToFixed0 (q : ℚ) : String := toString (Int.floor (q + 1 / 2))

/-- Group a reversed digit list into blocks of three (for thousand separators). -/
def groupThrees : List Char → List (List Char)
  | [] => []
  | [a] => [[a]]
  | [a, b] => [[a, b]]
  | a :: b :: c :: rest => [a, b, c] :: groupThrees rest

/-- Model of `Number.prototype.toLocaleString()` on an integer in the en-US
locale: decimal digits with a comma every three digits. -/
def toLocaleStringInt (n : ℤ) : String :=
  let ds := (toString n.natAbs).data
  let groups := (groupThrees ds.reverse).map (fun g => String.mk g.reverse)
  (if n < 0 then "-" else "") ++ String.intercalate ("," ) groups.reverse

/-- Fractional decimal digits of a rational in `[0,1)`, up to the given fuel
(terminating decimals of the UI values need far fewer digits). -/
def decDigits : Nat → ℚ → List Char
  | 0, _ => []
  | fuel + 1, q =>
    if q = 0 then []
    else
      let q10 := q * 10
      let d := Int.floor q10
      Char.ofNat ('0'.toNat + d.toNat) :: decDigits fuel (q10 - d)

/-- Model of JavaScript number-to-string coercion (template literals) for the
rationals appearing in the UI: integer part, then the fractional decimal
expansion when nonzero. -/
def jsNumToString (q : ℚ) : String :=
  let sign := if q < 0 then "-" else ""
  let aq := |q|
  let ip := Int.floor aq
  let fracDs := decDigits 32 (aq - ip)
  sign ++ toString ip.toNat ++ (if fracDs.isEmpty then "" else "." ++ String.mk fracDs)

/-- Embedding of `fmtMoney` (page.tsx 67-71): abbreviated currency rendering. -/
def fmtMoney (n : ℚ) : String :=
  if 1000000 ≤ n then "$" ++ jsToFixed1 (n / 1000000) ++ "M"
  else if 1000 ≤ n then "$" ++ jsToFixed0 (n / 1000) ++ "K"
  else "$" ++ toLocaleStringInt (jsRound n)

/-- Embedding of `fmtNum` (page.tsx 73-77): abbreviated count rendering, no currency symbol. -/
def fmtNum (n : ℚ) : String :=
  if 1000000 ≤ n then jsToFixed1 (n / 1000000) ++ "M"
  else if 1000 ≤ n then jsToFixed0 (n / 1000) ++ "K"
  else toLocaleStringInt (jsRound n)

/-- Embedding of `pct` (page.tsx 79-81): percentage rendering with a trailing percent sign. -/
def pct (n : ℚ) : String := jsNumToString n ++ "%"

-- ══════════════════════ data model (page.tsx 22-44) ═══════════════════════════

/-- The `Params` input record of the engine (page.tsx 22-44). -/
structure Params where
  monthlyTraffic : ℚ
  acv : ℚ
  tam : ℚ
  linkedinAdSpend : ℚ
  googleAdSpend : ℚ
  formFillRate : ℚ
  formAbandonRate : ℚ
  abandonToDemo : ℚ
  demoToDeal : ℚ
  dealWinRate : ℚ
  coldReachToMeeting : ℚ
  warmReachToMeeting : ℚ
  meetingToDeal : ℚ
  dealToClose : ℚ
  warmAccountPct : ℚ
  crmYears : ℚ
  reactivationRate : ℚ
  reactivationDemoRate : ℚ
  reactivationWinRate : ℚ
  linkedinRoiGain : ℚ
  googleRoiGain : ℚ

/-- A sales channel result: `pipeline`, `revenue` and derivation strings. -/
structure ChannelResult where
  pipeline : ℚ
  revenue : ℚ
  steps : List String

/-- An ad-efficiency channel result: `savings` and derivation strings. -/
structure SavingsResult where
  savings : ℚ
  steps : List String

/-- The output record of `calcROI` (page.tsx 120-171). -/
structure ROIResult where
  totalPipeline : ℚ
  totalRevenue : ℚ
  totalAdSavings : ℚ
  warmbound : ChannelResult
  formAbandonment : ChannelResult
  reactivation : ChannelResult
  linkedin : SavingsResult
  google : SavingsResult

-- ══════════════════════ engine intermediates (page.tsx 85-118) ════════════════

/-- Source const `annualTraffic` (page.tsx 86). -/
def annualTraffic (p : Params) : ℚ := p.monthlyTraffic * 12

/-- Source const `annualFormFills` (page.tsx 87). -/
def annualFormFills (p : Params) : ℚ := annualTraffic p * (p.formFillRate / 100)

/-- Source const `coldPipeline` (page.tsx 90): cold baseline over the full TAM. -/
def coldPipeline (p : Params) : ℚ :=
  p.tam * (p.coldReachToMeeting / 100) * (p.meetingToDeal / 100)

/-- Source const `warmAccounts` (page.tsx 91). -/
def warmAccounts (p : Params) : ℚ := p.tam * (p.warmAccountPct / 100)

/-- Source const `warmPipeline` (page.tsx 92). -/
def warmPipeline (p : Params) : ℚ :=
  warmAccounts p * (p.warmReachToMeeting / 100) * (p.meetingToDeal / 100)

/-- Source const `warmboundPipeline` (page.tsx 93): `Math.max(0, warm - cold) * acv`. -/
def warmboundPipeline (p : Params) : ℚ :=
  max 0 (warmPipeline p - coldPipeline p) * p.acv

/-- Source const `warmboundRevenue` (page.tsx 94). -/
def warmboundRevenue (p : Params) : ℚ := warmboundPipeline p * (p.dealToClose / 100)

/-- Source const `abandonedForms` (page.tsx 97). -/
def abandonedForms (p : Params) : ℚ := annualFormFills p * (p.formAbandonRate / 100)

/-- Source const `formDemos` (page.tsx 98). -/
def formDemos (p : Params) : ℚ := abandonedForms p * (p.abandonToDemo / 100)

/-- Source const `formDeals` (page.tsx 99). -/
def formDeals (p : Params) : ℚ := formDemos p * (p.demoToDeal / 100)

/-- Source const `formPipeline` (page.tsx 100). -/
def formPipeline (p : Params) : ℚ := formDeals p * p.acv

/-- Source const `formWins` (page.tsx 101). -/
def formWins (p : Params) : ℚ := formDeals p * (p.dealWinRate / 100)

/-- Source const `formRevenue` (page.tsx 102). -/
def formRevenue (p : Params) : ℚ := formWins p * p.acv

/-- Source const `crmLeads` (page.tsx 105). -/
def crmLeads (p : Params) : ℚ := annualFormFills p * p.crmYears

/-- Source const `reactivatedLeads` (page.tsx 106). -/
def reactivatedLeads (p : Params) : ℚ := crmLeads p * (p.reactivationRate / 100)

/-- Source const `reactivationDemos` (page.tsx 107). -/
def reactivationDemos (p : Params) : ℚ :=
  reactivatedLeads p * (p.reactivationDemoRate / 100)

/-- Source const `reactivationPipeline` (page.tsx 108): note no `demoToDeal` factor. -/
def reactivationPipeline (p : Params) : ℚ := reactivationDemos p * p.acv

/-- Source const `reactivationWins` (page.tsx 109). -/
def reactivationWins (p : Params) : ℚ :=
  reactivationDemos p * (p.reactivationWinRate / 100)

/-- Source const `reactivationRevenue` (page.tsx 110). -/
def reactivationRevenue (p : Params) : ℚ := reactivationWins p * p.acv

/-- Source const `linkedinSavings` (page.tsx 113). -/
def linkedinSavings (p : Params) : ℚ :=
  p.linkedinAdSpend * 12 * (p.linkedinRoiGain / 100)

/-- Source const `googleSavings` (page.tsx 114). -/
def googleSavings (p : Params) : ℚ :=
  p.googleAdSpend * 12 * (p.googleRoiGain / 100)

/-- Embedding of `calcROI` (page.tsx 85-172), the current funnel calculation engine,
including its derivation strings. -/
def calcROI (p : Params) : ROIResult :=
  { totalPipeline := warmboundPipeline p + formPipeline p + reactivationPipeline p
    totalRevenue := warmboundRevenue p + formRevenue p + reactivationRevenue p
    totalAdSavings := linkedinSavings p + googleSavings p
    warmbound :=
      { pipeline := warmboundPipeline p
        revenue := warmboundRevenue p
        steps :=
          [ fmtNum p.tam ++ " TAM × " ++ pct p.warmAccountPct ++ " showing intent = "
              ++ fmtNum (warmAccounts p) ++ " warm accounts",
            "Warm pipeline: " ++ fmtNum (warmAccounts p) ++ " × "
              ++ pct p.warmReachToMeeting ++ " reach→meeting × " ++ pct p.meetingToDeal
              ++ " →deal = " ++ fmtNum (warmPipeline p) ++ " deals",
            "Cold baseline: " ++ fmtNum p.tam ++ " × " ++ pct p.coldReachToMeeting
              ++ " × " ++ pct p.meetingToDeal ++ " = " ++ fmtNum (coldPipeline p)
              ++ " deals",
            "Pipeline uplift: (" ++ fmtNum (warmPipeline p) ++ " − "
              ++ fmtNum (coldPipeline p) ++ ") × " ++ fmtMoney p.acv ++ " ACV = "
              ++ fmtMoney (warmboundPipeline p),
            "Revenue: " ++ fmtMoney (warmboundPipeline p) ++ " × " ++ pct p.dealToClose
              ++ " win rate = " ++ fmtMoney (warmboundRevenue p) ] }
    formAbandonment :=
      { pipeline := formPipeline p
        revenue := formRevenue p
        steps :=
          [ fmtNum p.monthlyTraffic ++ "/mo × 12 = " ++ fmtNum (annualTraffic p)
              ++ " annual visitors",
            "× " ++ pct p.formFillRate ++ " form fill = " ++ fmtNum (annualFormFills p)
              ++ " submissions → × " ++ pct p.formAbandonRate ++ " abandoned = "
              ++ fmtNum (abandonedForms p),
            "× " ++ pct p.abandonToDemo ++ " →demo = " ++ fmtNum (formDemos p)
              ++ " → × " ++ pct p.demoToDeal ++ " →deal = " ++ fmtNum (formDeals p)
              ++ " deals",
            "Pipeline: " ++ fmtNum (formDeals p) ++ " × " ++ fmtMoney p.acv
              ++ " ACV = " ++ fmtMoney (formPipeline p),
            "Revenue: " ++ fmtNum (formDeals p) ++ " × " ++ pct p.dealWinRate
              ++ " win rate = " ++ fmtNum (formWins p) ++ " won × " ++ fmtMoney p.acv
              ++ " = " ++ fmtMoney (formRevenue p) ] }
    reactivation :=
      { pipeline := reactivationPipeline p
        revenue := reactivationRevenue p
        steps :=
          [ fmtNum (annualFormFills p) ++ " annual form fills × "
              ++ jsNumToString p.crmYears ++ " yrs = " ++ fmtNum (crmLeads p)
              ++ " CRM leads",
            "× " ++ pct p.reactivationRate ++ " return to site = "
              ++ fmtNum (reactivatedLeads p) ++ " re-engaged",
            "× " ++ pct p.reactivationDemoRate ++ " demo rate = "
              ++ fmtNum (reactivationDemos p) ++ " demos",
            "Pipeline: " ++ fmtNum (reactivationDemos p) ++ " × " ++ fmtMoney p.acv
              ++ " ACV = " ++ fmtMoney (reactivationPipeline p),
            "Revenue: " ++ fmtNum (reactivationDemos p) ++ " × "
              ++ pct p.reactivationWinRate ++ " win rate = "
              ++ fmtNum (reactivationWins p) ++ " won × " ++ fmtMoney p.acv ++ " = "
              ++ fmtMoney (reactivationRevenue p) ] }
    linkedin :=
      { savings := linkedinSavings p
        steps :=
          [ fmtMoney p.linkedinAdSpend ++ "/mo × 12 = "
              ++ fmtMoney (p.linkedinAdSpend * 12) ++ " annual spend",
            "× " ++ pct p.linkedinRoiGain ++ " efficiency gain = "
              ++ fmtMoney (linkedinSavings p) ++ " saved" ] }
    google :=
      { savings := googleSavings p
        steps :=
          [ fmtMoney p.googleAdSpend ++ "/mo × 12 = "
              ++ fmtMoney (p.googleAdSpend * 12) ++ " annual spend",
            "× " ++ pct p.googleRoiGain ++ " efficiency gain = "
              ++ fmtMoney (googleSavings p) ++ " saved" ] } }

-- ══════════════ earlier engine iteration (page.tsx 554-585) ═══════════════════

namespace V2

/-- Source const `coldDeals` of the earlier engine iteration (page.tsx 564-565). -/
def coldDeals (p : Params) : ℚ :=
  p.tam * (p.coldReachToMeeting / 100) * (p.meetingToDeal / 100) * (p.dealToClose / 100)

/-- Source const `warmDeals` of the earlier engine iteration (page.tsx 566-567). -/
def warmDeals (p : Params) : ℚ :=
  p.tam * (p.warmAccountPct / 100) * (p.warmReachToMeeting / 100)
    * (p.meetingToDeal / 100) * (p.dealToClose / 100)

/-- Source const `warmboundUplift` of the earlier engine iteration (page.tsx 568). -/
def warmboundUplift (p : Params) : ℚ := max 0 (warmDeals p - coldDeals p) * p.acv

end V2

-- ══════════════════════ concrete parameter vectors ════════════════════════════

/-- The worked-scenario input vector from the specification. -/
def workedParams : Params :=
  { monthlyTraffic := 50000
    acv := 20000
    tam := 5000
    linkedinAdSpend := 10000
    googleAdSpend := 8000
    formFillRate := 1 / 2
    formAbandonRate := 67
    abandonToDemo := 5
    demoToDeal := 30
    dealWinRate := 20
    coldReachToMeeting := 2
    warmReachToMeeting := 10
    meetingToDeal := 40
    dealToClose := 20
    warmAccountPct := 15
    crmYears := 5
    reactivationRate := 10
    reactivationDemoRate := 7
    reactivationWinRate := 15
    linkedinRoiGain := 20
    googleRoiGain := 10 }


/-- Inputs as the worked scenario but with `monthlyTraffic` and `tam` zeroed. -/
def pZero : Params := { workedParams with monthlyTraffic := 0, tam := 0 }

/-- Inputs with the warm reach-to-meeting rate configured below the cold rate,
while `tam`, `meetingToDeal` and `acv` are positive. -/
def pC4 : Params :=
  { monthlyTraffic := 1000
    acv := 1000
    tam := 1000
    linkedinAdSpend := 0
    googleAdSpend := 0
    formFillRate := 1
    formAbandonRate := 50
    abandonToDemo := 5
    demoToDeal := 30
    dealWinRate := 20
    coldReachToMeeting := 10
    warmReachToMeeting := 5
    meetingToDeal := 50
    dealToClose := 20
    warmAccountPct := 50
    crmYears := 5
    reactivationRate := 10
    reactivationDemoRate := 7
    reactivationWinRate := 15
    linkedinRoiGain := 20
    googleRoiGain := 10 }

/-- Inputs with non-negative `acv` and a win rate below 100 but a negative
`formAbandonRate`, driving the form-channel deal count negative. -/
def pC6 : Params :=
  { monthlyTraffic := 100
    acv := 100
    tam := 0
    linkedinAdSpend := 0
    googleAdSpend := 0
    formFillRate := 1
    formAbandonRate := -100
    abandonToDemo := 100
    demoToDeal := 100
    dealWinRate := 0
    coldReachToMeeting := 2
    warmReachToMeeting := 6
    meetingToDeal := 40
    dealToClose := 20
    warmAccountPct := 5
    crmYears := 5
    reactivationRate := 10
    reactivationDemoRate := 7
    reactivationWinRate := 15
    linkedinRoiGain := 20
    googleRoiGain := 10 }

-- ══════════════════════ JSON values and JSON.parse model ══════════════════════

/-- JSON values, as produced by JavaScript `JSON.parse` (which may yield any
of these shapes, not only objects). -/
inductive Json where
  | null : Json
  | boolean : Bool → Json
  | num : ℚ → Json
  | str : String → Json
  | arr : List Json → Json
  | obj : List (String × Json) → Json

/-- Whether a JSON value is an object (a record). -/
def Json.isObj : Json → Bool
  | Json.obj _ => true
  | _ => false

/-- JSON whitespace test. -/
def isWsChar (c : Char) : Bool := c = ' ' || c = '\t' || c = '\n' || c = '\r'

/-- Drop leading JSON whitespace. -/
def skipWs : List Char → List Char
  | [] => []
  | c :: cs => if isWsChar c then skipWs cs else c :: cs

/-- Decode a single-character JSON string escape. -/
def escChar (c : Char) : Option Char :=
  if c = '"' then some '"'
  else if c = '\\' then some '\\'
  else if c = '/' then some '/'
  else if c = 'n' then some '\n'
  else if c = 't' then some '\t'
  else if c = 'r' then some '\r'
  else if c = 'b' then some (Char.ofNat 8)
  else if c = 'f' then some (Char.ofNat 12)
  else none

/-- Value of a hexadecimal digit. -/
def hexVal (c : Char) : Option Nat :=
  if '0' ≤ c ∧ c ≤ '9' then some (c.toNat - '0'.toNat)
  else if 'a' ≤ c ∧ c ≤ 'f' then some (c.toNat - 'a'.toNat + 10)
  else if 'A' ≤ c ∧ c ≤ 'F' then some (c.toNat - 'A'.toNat + 10)
  else none

/-- Scan the body of a JSON string literal up to its closing quote, decoding
escapes; returns the content and the remaining input. -/
def parseStrAux : List Char → Option (List Char × List Char)
  | [] => none
  | '"' :: rest => some ([], rest)
  | '\\' :: 'u' :: a :: b :: c :: d :: rest =>
    match hexVal a, hexVal b, hexVal c, hexVal d with
    | some ha, some hb, some hc, some hd =>
      match parseStrAux rest with
      | some (s, r) => some (Char.ofNat (((ha * 16 + hb) * 16 + hc) * 16 + hd) :: s, r)
      | none => none
    | _, _, _, _ => none
  | '\\' :: e :: rest =>
    match escChar e with
    | some c =>
      match parseStrAux rest with
      | some (s, r) => some (c :: s, r)
      | none => none
    | none => none
  | c :: rest =>
    match parseStrAux rest with
    | some (s, r) => some (c :: s, r)
    | none => none

/-- Digit test for number scanning. -/
def isDigitCh (c : Char) : Bool := '0' ≤ c && c ≤ '9'

/-- Split a leading run of decimal digits from the input. -/
def takeDigits : List Char → List Char × List Char
  | [] => ([], [])
  | c :: cs =>
    if isDigitCh c then
      let (ds, rest) := takeDigits cs
      (c :: ds, rest)
    else ([], c :: cs)

/-- Decimal value of a digit list. -/
def digitsToNat (ds : List Char) : Nat :=
  ds.foldl (fun acc c => acc * 10 + (c.toNat - '0'.toNat)) 0

/-- Parse an optional fractional part `.digits`. -/
def parseFrac : List Char → Option (ℚ × List Char)
  | '.' :: rest =>
    let (fds, r) := takeDigits rest
    if fds.isEmpty then none
    else some ((digitsToNat fds : ℚ) / (10 : ℚ) ^ fds.length, r)
  | cs => some (0, cs)

/-- Parse the signed digits after an exponent marker. -/
def parseExpTail (cs : List Char) : Option (ℤ × List Char) :=
  let (sign, cs1) : ℤ × List Char :=
    match cs with
    | '+' :: r => (1, r)
    | '-' :: r => (-1, r)
    | _ => (1, cs)
  let (ds, cs2) := takeDigits cs1
  if ds.isEmpty then none else some (sign * (digitsToNat ds : ℤ), cs2)

/-- Parse an optional exponent part `e±digits`. -/
def parseExp : List Char → Option (ℤ × List Char)
  | 'e' :: rest => parseExpTail rest
  | 'E' :: rest => parseExpTail rest
  | cs => some (0, cs)

/-- Integer power of ten as a rational. -/
def qpow10 (e : ℤ) : ℚ :=
  if 0 ≤ e then (10 : ℚ) ^ e.toNat else 1 / (10 : ℚ) ^ (-e).toNat

/-- Parse a JSON number. -/
def parseNum (cs : List Char) : Option (ℚ × List Char) :=
  let (neg, cs1) :=
    match cs with
    | '-' :: rest => (true, rest)
    | _ => (false, cs)
  let (intDs, cs2) := takeDigits cs1
  if intDs.isEmpty then none
  else
    match parseFrac cs2 with
    | none => none
    | some (fr, cs3) =>
      match parseExp cs3 with
      | none => none
      | some (e, cs4) =>
        let mag : ℚ := ((digitsToNat intDs : ℚ) + fr) * qpow10 e
        some (if neg then -mag else mag, cs4)

mutual

/-- Parse one JSON value (fuelled recursion; the fuel bounds nesting). -/
def parseVal : Nat → List Char → Option (Json × List Char)
  | 0, _ => none
  | fuel + 1, cs =>
    match skipWs cs with
    | [] => none
    | 'n' :: 'u' :: 'l' :: 'l' :: rest => some (Json.null, rest)
    | 't' :: 'r' :: 'u' :: 'e' :: rest => some (Json.boolean true, rest)
    | 'f' :: 'a' :: 'l' :: 's' :: 'e' :: rest => some (Json.boolean false, rest)
    | '"' :: rest =>
      match parseStrAux rest with
      | some (s, r) => some (Json.str (String.mk s), r)
      | none => none
    | '[' :: rest =>
      match skipWs rest with
      | ']' :: r => some (Json.arr [], r)
      | cs2 =>
        match parseElems fuel cs2 with
        | some (es, r) => some (Json.arr es, r)
        | none => none
    | '{' :: rest =>
      match skipWs rest with
      | '}' :: r => some (Json.obj [], r)
      | cs2 =>
        match parseMembers fuel cs2 with
        | some (ms, r) => some (Json.obj ms, r)
        | none => none
    | cs1 =>
      match parseNum cs1 with
      | some (q, r) => some (Json.num q, r)
      | none => none

/-- Parse the comma-separated elements of a JSON array up to `]`. -/
def parseElems : Nat → List Char → Option (List Json × List Char)
  | 0, _ => none
  | fuel + 1, cs =>
    match parseVal fuel cs with
    | none => none
    | some (v, rest) =>
      match skipWs rest with
      | ',' :: r =>
        match parseElems fuel r with
        | some (es, r2) => some (v :: es, r2)
        | none => none
      | ']' :: r => some ([v], r)
      | _ => none

/-- Parse the comma-separated members of a JSON object up to a closing brace. -/
def parseMembers : Nat → List Char → Option (List (String × Json) × List Char)
  | 0, _ => none
  | fuel + 1, cs =>
    match skipWs cs with
    | '"' :: rest =>
      match parseStrAux rest with
      | none => none
      | some (k, rest2) =>
        match skipWs rest2 with
        | ':' :: rest3 =>
          match parseVal fuel rest3 with
          | none => none
          | some (v, rest4) =>
            match skipWs rest4 with
            | ',' :: r =>
              match parseMembers fuel r with
              | some (ms, r2) => some ((String.mk k, v) :: ms, r2)
              | none => none
            | '}' :: r => some ([(String.mk k, v)], r)
            | _ => none
        | _ => none
    | _ => none

end

/-- Model of JavaScript `JSON.parse`: parse one value and require only
whitespace to remain; `none` models a thrown `SyntaxError`. -/
def jsonParse (s : String) : Option Json :=
  match parseVal (s.length + 16) s.data with
  | some (v, rest) => if (skipWs rest).isEmpty then some v else none
  | none => none


-- ══════════════════════ local cache reader (page.tsx 269-275) ═════════════════

/-- Embedding of `loadCache` (page.tsx 269-275).  The input models
`localStorage.getItem(CACHE_KEY)`: `none` for an absent entry (the `?? ""`
default supplies the empty-object text), `some s` for a stored string.  The
`try/catch` around `JSON.parse` is modelled by the `none` branch of the parse
returning the empty object.  The parsed value is returned without validation,
exactly as the source casts it. -/
def loadCache (stored : Option String) : Json :=
  match jsonParse (stored.getD ("\x7b\x7d")) with
  | some v => v
  | none => Json.obj []

-- ══════════════════ research endpoint (route.ts 33-90) ════════════════════════

/-- Outcome of the upstream provider `fetch` (route.ts 48-77): a non-success
response carrying its error text, or a success whose `content` models
`data.choices?.[0]?.message?.content` (absent falls back to the empty string)
and whose `citations` models `data.citations` (absent falls back to `[]`). -/
inductive Upstream where
  | notOk : String → Upstream
  | ok : Option String → Option (List String) → Upstream

/-- Response bodies produced by the handler: an error body, an error body
with the raw provider text attached, or the parsed payload spread together
with the citations. -/
inductive ApiBody where
  | errorMsg : String → ApiBody
  | errorRaw : String → String → ApiBody
  | success : Json → List String → ApiBody

/-- An HTTP response: status code and JSON body. -/
structure ApiResponse where
  status : Nat
  body : ApiBody

/-- Replace every occurrence of a pattern (scanning left to right). -/
def startsWithChars : List Char → List Char → Bool
  | [], _ => true
  | _ :: _, [] => false
  | p :: ps, c :: cs => decide (p = c) && startsWithChars ps cs

/-- Fuelled worker for `replaceAll`. -/
def replaceAllAux (pat repl : List Char) : Nat → List Char → List Char
  | 0, s => s
  | _, [] => []
  | fuel + 1, c :: cs =>
    if pat ≠ [] && startsWithChars pat (c :: cs) then
      repl ++ replaceAllAux pat repl fuel (List.drop (pat.length - 1) cs)
    else c :: replaceAllAux pat repl fuel cs

/-- Model of `String.prototype.replace` with a global literal pattern. -/
def replaceAll (s pat repl : String) : String :=
  String.mk (replaceAllAux pat.data repl.data (s.length + 1) s.data)

/-- Model of `String.prototype.trim` (for the whitespace the provider emits). -/
def trimStr (s : String) : String :=
  String.mk ((skipWs ((skipWs s.data).reverse)).reverse)

/-- The code-fence stripping of route.ts 81: the regex
`/` + three backticks + `json|` + three backticks + `/g` removes every
occurrence of either alternative (longest first at each position), then the
result is trimmed. -/
def stripFences (s : String) : String :=
  trimStr (replaceAll (replaceAll s ("```json") ("")) ("```") (""))

/-- Embedding of `POST` of `src/app/api/research/route.ts` (lines 33-90).  `domain` models
the domain field of the request body (absent or present; the JavaScript falsy test also
catches the empty string), `apiKey` models `process.env.PERPLEXITY_API_KEY`,
and `upstream` the outcome of the provider call. -/
def POST (domain apiKey : Option String) (upstream : Upstream) : ApiResponse :=
  if domain.getD ("") = "" then
    ⟨400, ApiBody.errorMsg ("Domain is required")⟩
  else if apiKey.getD ("") = "" then
    ⟨500, ApiBody.errorMsg ("PERPLEXITY_API_KEY not configured")⟩
  else
    match upstream with
    | Upstream.notOk err => ⟨500, ApiBody.errorMsg ("Perplexity API error: " ++ err)⟩
    | Upstream.ok contentOpt citationsOpt =>
      let content := contentOpt.getD ("")
      let citations := citationsOpt.getD []
      match jsonParse (stripFences content) with
      | some parsed => ⟨200, ApiBody.success parsed citations⟩
      | none => ⟨500, ApiBody.errorRaw ("Failed to parse AI response") content⟩


-- ══════════════════════ sanity checks ════════════════════════════════════════

example : warmboundPipeline workedParams = 0 := by
  norm_num [warmboundPipeline, warmPipeline, warmAccounts, coldPipeline, workedParams, max_def]
example : formPipeline workedParams = 603000 := by
  norm_num [formPipeline, formDeals, formDemos, abandonedForms, annualFormFills, annualTraffic, workedParams]
example : formRevenue workedParams = 120600 := by
  norm_num [formRevenue, formWins, formDeals, formDemos, abandonedForms, annualFormFills, annualTraffic, workedParams]
example : reactivationPipeline workedParams = 2100000 := by
  norm_num [reactivationPipeline, reactivationDemos, reactivatedLeads, crmLeads, annualFormFills, annualTraffic, workedParams]
example : reactivationRevenue workedParams = 315000 := by
  norm_num [reactivationRevenue, reactivationWins, reactivationDemos, reactivatedLeads, crmLeads, annualFormFills, annualTraffic, workedParams]
example : linkedinSavings workedParams = 24000 := by
  norm_num [linkedinSavings, workedParams]
example : googleSavings workedParams = 9600 := by
  norm_num [googleSavings, workedParams]
example : jsonParse ("\x7b\x7d") = some (Json.obj []) := by rfl
example : jsonParse ("null") = some Json.null := by rfl
example : jsonParse ("not json") = none := by rfl
example : jsonParse ("\x7b\x22a\x22:true\x7d") = some (Json.obj [("a", Json.boolean true)]) := by rfl
example : jsonParse ("[null, false]") = some (Json.arr [Json.null, Json.boolean false]) := by rfl
example : stripFences ("```json\n\x7b\x7d\n```") = "\x7b\x7d" := by rfl
example : jsonParse (stripFences ("```json\n\x7b\x7d\n```")) = some (Json.obj []) := by rfl

-- ══════════════════════ C1: worked scenario ═══════════════════════════════════

/-- C1 (counterexample): at the worked-scenario inputs, the engine does not
return the expected Warmbound pipeline 480,000, CRM pipeline 630,000, or total
pipeline 1,713,000. -/
theorem c1_counterexample :
    (calcROI workedParams).warmbound.pipeline ≠ 480000 ∧
    (calcROI workedParams).reactivation.pipeline ≠ 630000 ∧
    (calcROI workedParams).totalPipeline ≠ 1713000 := by
  refine ⟨?_, ?_, ?_⟩
  · show warmboundPipeline workedParams ≠ 480000
    norm_num [warmboundPipeline, warmPipeline, warmAccounts, coldPipeline, workedParams,
      max_def]
  · show reactivationPipeline workedParams ≠ 630000
    norm_num [reactivationPipeline, reactivationDemos, reactivatedLeads, crmLeads,
      annualFormFills, annualTraffic, workedParams]
  · show warmboundPipeline workedParams + formPipeline workedParams
      + reactivationPipeline workedParams ≠ 1713000
    norm_num [warmboundPipeline, warmPipeline, warmAccounts, coldPipeline,
      formPipeline, formDeals, formDemos, abandonedForms,
      reactivationPipeline, reactivationDemos, reactivatedLeads, crmLeads,
      annualFormFills, annualTraffic, workedParams, max_def]

/-- C1 (amended): with the worked-scenario inputs, `calcROI` returns Warmbound
pipeline 0 and revenue 0 (the warm uplift is below the full-TAM cold baseline
and is clamped at zero), Form Abandonment pipeline 603,000 and revenue 120,600,
CRM Reactivation pipeline 2,100,000 and revenue 315,000 (no `demoToDeal`
factor in that channel), LinkedIn savings 24,000, Google savings 9,600,
`totalPipeline` 2,703,000, `totalRevenue` 435,600, `totalAdSavings` 33,600. -/
theorem c1_worked_scenario_actual :
    (calcROI workedParams).warmbound.pipeline = 0 ∧
    (calcROI workedParams).warmbound.revenue = 0 ∧
    (calcROI workedParams).formAbandonment.pipeline = 603000 ∧
    (calcROI workedParams).formAbandonment.revenue = 120600 ∧
    (calcROI workedParams).reactivation.pipeline = 2100000 ∧
    (calcROI workedParams).reactivation.revenue = 315000 ∧
    (calcROI workedParams).linkedin.savings = 24000 ∧
    (calcROI workedParams).google.savings = 9600 ∧
    (calcROI workedParams).totalPipeline = 2703000 ∧
    (calcROI workedParams).totalRevenue = 435600 ∧
    (calcROI workedParams).totalAdSavings = 33600 := by
  refine ⟨?_, ?_, ?_, ?_, ?_, ?_, ?_, ?_, ?_, ?_, ?_⟩
  · show warmboundPipeline workedParams = 0
    norm_num [warmboundPipeline, warmPipeline, warmAccounts, coldPipeline, workedParams,
      max_def]
  · show warmboundRevenue workedParams = 0
    norm_num [warmboundRevenue, warmboundPipeline, warmPipeline, warmAccounts,
      coldPipeline, workedParams, max_def]
  · show formPipeline workedParams = 603000
    norm_num [formPipeline, formDeals, formDemos, abandonedForms, annualFormFills,
      annualTraffic, workedParams]
  · show formRevenue workedParams = 120600
    norm_num [formRevenue, formWins, formDeals, formDemos, abandonedForms,
      annualFormFills, annualTraffic, workedParams]
  · show reactivationPipeline workedParams = 2100000
    norm_num [reactivationPipeline, reactivationDemos, reactivatedLeads, crmLeads,
      annualFormFills, annualTraffic, workedParams]
  · show reactivationRevenue workedParams = 315000
    norm_num [reactivationRevenue, reactivationWins, reactivationDemos,
      reactivatedLeads, crmLeads, annualFormFills, annualTraffic, workedParams]
  · show linkedinSavings workedParams = 24000
    norm_num [linkedinSavings, workedParams]
  · show googleSavings workedParams = 9600
    norm_num [googleSavings, workedParams]
  · show warmboundPipeline workedParams + formPipeline workedParams
      + reactivationPipeline workedParams = 2703000
    norm_num [warmboundPipeline, warmPipeline, warmAccounts, coldPipeline,
      formPipeline, formDeals, formDemos, abandonedForms,
      reactivationPipeline, reactivationDemos, reactivatedLeads, crmLeads,
      annualFormFills, annualTraffic, workedParams, max_def]
  · show warmboundRevenue workedParams + formRevenue workedParams
      + reactivationRevenue workedParams = 435600
    norm_num [warmboundRevenue, warmboundPipeline, warmPipeline, warmAccounts,
      coldPipeline, formRevenue, formWins, formDeals, formDemos, abandonedForms,
      reactivationRevenue, reactivationWins, reactivationDemos, reactivatedLeads,
      crmLeads, annualFormFills, annualTraffic, workedParams, max_def]
  · show linkedinSavings workedParams + googleSavings workedParams = 33600
    norm_num [linkedinSavings, googleSavings, workedParams]

-- ══════════════════════ C2: Warmbound formula ═════════════════════════════════

/-- C2 (counterexample): at the worked-scenario inputs the marginal
formula (warm-minus-cold rate delta over the warm-account subset) yields
480,000, but the Warmbound pipeline of the engine is 0. -/
theorem c2_counterexample :
    (workedParams.tam * (workedParams.warmAccountPct / 100))
        * ((workedParams.warmReachToMeeting - workedParams.coldReachToMeeting) / 100)
        * (workedParams.meetingToDeal / 100) * workedParams.acv = 480000 ∧
    (calcROI workedParams).warmbound.pipeline = 0 := by
  constructor
  · norm_num [workedParams]
  · show warmboundPipeline workedParams = 0
    norm_num [warmboundPipeline, warmPipeline, warmAccounts, coldPipeline, workedParams,
      max_def]

/-- C2 (amended): the engine computes the Warmbound pipeline as
`max(0, warmPipeline - coldPipeline) * acv` where the cold baseline applies the
cold rate to the full TAM (not to the warm-account subset) and the difference
is clamped at zero; revenue is pipeline times `dealToClose/100`.  The earlier
engine iteration (page.tsx 564-568) likewise subtracts a full-TAM cold baseline
and clamps, with `dealToClose` folded in before `acv`. -/
theorem c2_warmbound_full_tam_baseline (p : Params) :
    (calcROI p).warmbound.pipeline =
      max 0 (p.tam * (p.warmAccountPct / 100) * (p.warmReachToMeeting / 100)
          * (p.meetingToDeal / 100)
        - p.tam * (p.coldReachToMeeting / 100) * (p.meetingToDeal / 100)) * p.acv ∧
    (calcROI p).warmbound.revenue =
      (calcROI p).warmbound.pipeline * (p.dealToClose / 100) ∧
    V2.warmboundUplift p =
      max 0 (p.tam * (p.warmAccountPct / 100) * (p.warmReachToMeeting / 100)
          * (p.meetingToDeal / 100) * (p.dealToClose / 100)
        - p.tam * (p.coldReachToMeeting / 100) * (p.meetingToDeal / 100)
          * (p.dealToClose / 100)) * p.acv :=
  ⟨rfl, rfl, rfl⟩

-- ══════════════════════ C3: CRM reactivation formula ══════════════════════════

/-- C3 (counterexample): at the worked-scenario inputs the CRM
Reactivation pipeline of the engine is 2,100,000, while the formula of the spec with the shared
demo-to-deal factor applied would give 630,000. -/
theorem c3_counterexample :
    (calcROI workedParams).reactivation.pipeline = 2100000 ∧
    reactivationDemos workedParams * (workedParams.demoToDeal / 100)
      * workedParams.acv = 630000 := by
  constructor
  · show reactivationPipeline workedParams = 2100000
    norm_num [reactivationPipeline, reactivationDemos, reactivatedLeads, crmLeads,
      annualFormFills, annualTraffic, workedParams]
  · norm_num [reactivationDemos, reactivatedLeads, crmLeads, annualFormFills,
      annualTraffic, workedParams]

/-- C3 (amended): the CRM Lead Reactivation channel computes
`crmLeads = annual form fills * crmYears`,
`reactivated = crmLeads * reactivationRate/100`,
`reactivationDemos = reactivated * reactivationDemoRate/100`, and then goes
straight from demos to money without the shared demo-to-deal rate:
`pipeline = reactivationDemos * acv` and
`revenue = reactivationDemos * reactivationWinRate/100 * acv`. -/
theorem c3_reactivation_no_demo_to_deal (p : Params) :
    (calcROI p).reactivation.pipeline =
      p.monthlyTraffic * 12 * (p.formFillRate / 100) * p.crmYears
        * (p.reactivationRate / 100) * (p.reactivationDemoRate / 100) * p.acv ∧
    (calcROI p).reactivation.revenue =
      p.monthlyTraffic * 12 * (p.formFillRate / 100) * p.crmYears
        * (p.reactivationRate / 100) * (p.reactivationDemoRate / 100)
        * (p.reactivationWinRate / 100) * p.acv :=
  ⟨rfl, rfl⟩

-- ══════════════════════ C4: negative uplift handling ══════════════════════════

/-- C4 (counterexample): a parameter vector with the warm reach-to-meeting rate
below the cold rate and positive `tam`, `meetingToDeal`, `acv` on which the
Warmbound pipeline of the engine is exactly 0, not strictly negative. -/
theorem c4_counterexample :
    pC4.warmReachToMeeting < pC4.coldReachToMeeting ∧
    0 < pC4.tam ∧ 0 < pC4.meetingToDeal ∧ 0 < pC4.acv ∧
    (calcROI pC4).warmbound.pipeline = 0 := by
  refine ⟨by norm_num [pC4], by norm_num [pC4], by norm_num [pC4], by norm_num [pC4], ?_⟩
  show warmboundPipeline pC4 = 0
  norm_num [warmboundPipeline, warmPipeline, warmAccounts, coldPipeline, pC4, max_def]

/-- C4 (amended): the engine floors negative uplift at zero via
`Math.max(0, ...)`: for every `Params` with non-negative `tam`,
`meetingToDeal` and `warmReachToMeeting`, warm rate strictly below cold rate,
and `warmAccountPct` at most 100, the Warmbound pipeline is exactly 0 (and the
`warmboundUplift` of the earlier engine iteration is likewise 0 when `dealToClose`
is non-negative); it is never reported as a negative value. -/
theorem c4_negative_uplift_clamped (p : Params)
    (htam : 0 ≤ p.tam) (hm : 0 ≤ p.meetingToDeal) (hw : 0 ≤ p.warmReachToMeeting)
    (hwc : p.warmReachToMeeting < p.coldReachToMeeting)
    (hpct : p.warmAccountPct ≤ 100) :
    (calcROI p).warmbound.pipeline = 0 ∧
    (0 ≤ p.dealToClose → V2.warmboundUplift p = 0) := by
  have hm100 : (0:ℚ) ≤ p.meetingToDeal / 100 := div_nonneg hm (by norm_num)
  have ht : (0:ℚ) ≤ p.tam * (p.meetingToDeal / 100) := mul_nonneg htam hm100
  have hA : p.warmAccountPct / 100 ≤ 1 := by linarith
  have h2 : (p.warmAccountPct / 100) * p.warmReachToMeeting ≤ 1 * p.warmReachToMeeting :=
    mul_le_mul_of_nonneg_right hA hw
  have h1 : (p.warmAccountPct / 100) * p.warmReachToMeeting ≤ p.coldReachToMeeting := by
    rw [one_mul] at h2
    linarith
  have h4 : (0:ℚ) ≤ (p.coldReachToMeeting
      - (p.warmAccountPct / 100) * p.warmReachToMeeting) / 100 :=
    div_nonneg (by linarith) (by norm_num)
  have h5 : 0 ≤ (p.tam * (p.meetingToDeal / 100))
      * ((p.coldReachToMeeting - (p.warmAccountPct / 100) * p.warmReachToMeeting) / 100) :=
    mul_nonneg ht h4
  have hkey : warmPipeline p - coldPipeline p ≤ 0 := by
    simp only [warmPipeline, warmAccounts, coldPipeline]
    nlinarith [h5]
  constructor
  · show warmboundPipeline p = 0
    simp only [warmboundPipeline]
    rw [max_eq_left hkey, zero_mul]
  · intro hd
    have hd100 : (0:ℚ) ≤ p.dealToClose / 100 := div_nonneg hd (by norm_num)
    have h7 : 0 ≤ (coldPipeline p - warmPipeline p) * (p.dealToClose / 100) :=
      mul_nonneg (by linarith) hd100
    have h8 : V2.warmDeals p - V2.coldDeals p ≤ 0 := by
      simp only [V2.warmDeals, V2.coldDeals]
      simp only [warmPipeline, warmAccounts, coldPipeline] at h7
      nlinarith [h7]
    show V2.warmboundUplift p = 0
    simp only [V2.warmboundUplift]
    rw [max_eq_left h8, zero_mul]

/-- C4 (witness): the amended theorem applied at the concrete vector `pC4`. -/
theorem c4_negative_uplift_clamped_witness :
    (calcROI pC4).warmbound.pipeline = 0 ∧ V2.warmboundUplift pC4 = 0 :=
  ⟨(c4_negative_uplift_clamped pC4 (by norm_num [pC4]) (by norm_num [pC4])
      (by norm_num [pC4]) (by norm_num [pC4]) (by norm_num [pC4])).1,
   (c4_negative_uplift_clamped pC4 (by norm_num [pC4]) (by norm_num [pC4])
      (by norm_num [pC4]) (by norm_num [pC4]) (by norm_num [pC4])).2
      (by norm_num [pC4])⟩

-- ══════════════════════ C5: totals ════════════════════════════════════════════

/-- C5: the three totals of `calcROI` are exactly the sums of the per-channel
pipelines, revenues, and ad savings — exact rational equalities. -/
theorem c5_totals_are_sums (p : Params) :
    (calcROI p).totalPipeline =
      (calcROI p).warmbound.pipeline + (calcROI p).formAbandonment.pipeline
        + (calcROI p).reactivation.pipeline ∧
    (calcROI p).totalRevenue =
      (calcROI p).warmbound.revenue + (calcROI p).formAbandonment.revenue
        + (calcROI p).reactivation.revenue ∧
    (calcROI p).totalAdSavings =
      (calcROI p).linkedin.savings + (calcROI p).google.savings :=
  ⟨rfl, rfl, rfl⟩

-- ══════════════════════ C6: revenue vs pipeline ═══════════════════════════════

/-- The form-channel deal count is non-negative when its upstream inputs are. -/
lemma formDeals_nonneg (p : Params) (hmt : 0 ≤ p.monthlyTraffic)
    (hfr : 0 ≤ p.formFillRate) (har : 0 ≤ p.formAbandonRate)
    (had : 0 ≤ p.abandonToDemo) (hdd : 0 ≤ p.demoToDeal) : 0 ≤ formDeals p := by
  have h1 : (0:ℚ) ≤ annualTraffic p := mul_nonneg hmt (by norm_num)
  have h2 : (0:ℚ) ≤ annualFormFills p := mul_nonneg h1 (div_nonneg hfr (by norm_num))
  have h3 : (0:ℚ) ≤ abandonedForms p := mul_nonneg h2 (div_nonneg har (by norm_num))
  have h4 : (0:ℚ) ≤ formDemos p := mul_nonneg h3 (div_nonneg had (by norm_num))
  exact mul_nonneg h4 (div_nonneg hdd (by norm_num))

/-- The CRM-channel demo count is non-negative when its upstream inputs are. -/
lemma reactivationDemos_nonneg (p : Params) (hmt : 0 ≤ p.monthlyTraffic)
    (hfr : 0 ≤ p.formFillRate) (hcy : 0 ≤ p.crmYears)
    (hrr : 0 ≤ p.reactivationRate) (hrd : 0 ≤ p.reactivationDemoRate) :
    0 ≤ reactivationDemos p := by
  have h1 : (0:ℚ) ≤ annualTraffic p := mul_nonneg hmt (by norm_num)
  have h2 : (0:ℚ) ≤ annualFormFills p := mul_nonneg h1 (div_nonneg hfr (by norm_num))
  have h3 : (0:ℚ) ≤ crmLeads p := mul_nonneg h2 hcy
  have h4 : (0:ℚ) ≤ reactivatedLeads p := mul_nonneg h3 (div_nonneg hrr (by norm_num))
  exact mul_nonneg h4 (div_nonneg hrd (by norm_num))

/-- C6 (counterexample): with non-negative `acv` and a win rate at most 100 but
a negative `formAbandonRate`, the pipeline of the Form Abandonment channel is
strictly below its revenue, refuting the claim as stated (which constrains
only `acv` and the win rate). -/
theorem c6_counterexample :
    0 ≤ pC6.acv ∧ pC6.dealWinRate ≤ 100 ∧
    (calcROI pC6).formAbandonment.pipeline < (calcROI pC6).formAbandonment.revenue := by
  refine ⟨by norm_num [pC6], by norm_num [pC6], ?_⟩
  show formPipeline pC6 < formRevenue pC6
  norm_num [formPipeline, formRevenue, formWins, formDeals, formDemos, abandonedForms,
    annualFormFills, annualTraffic, pC6]

/-- C6 (amended): with non-negative `acv`, the revenue of each channel is at most
its pipeline whenever the close/win rate of that channel is at most 100, provided
additionally (for the Form Abandonment and CRM Reactivation channels) that the
upstream funnel inputs of the channel are non-negative; the Warmbound channel needs
no extra hypotheses because `Math.max(0, ...)` already keeps its deal count
non-negative. -/
theorem c6_revenue_le_pipeline (p : Params) (hacv : 0 ≤ p.acv) :
    (p.dealToClose ≤ 100 →
      (calcROI p).warmbound.revenue ≤ (calcROI p).warmbound.pipeline) ∧
    (0 ≤ p.monthlyTraffic → 0 ≤ p.formFillRate → 0 ≤ p.formAbandonRate →
      0 ≤ p.abandonToDemo → 0 ≤ p.demoToDeal → p.dealWinRate ≤ 100 →
      (calcROI p).formAbandonment.revenue ≤ (calcROI p).formAbandonment.pipeline) ∧
    (0 ≤ p.monthlyTraffic → 0 ≤ p.formFillRate → 0 ≤ p.crmYears →
      0 ≤ p.reactivationRate → 0 ≤ p.reactivationDemoRate →
      p.reactivationWinRate ≤ 100 →
      (calcROI p).reactivation.revenue ≤ (calcROI p).reactivation.pipeline) := by
  refine ⟨?_, ?_, ?_⟩
  · intro hd
    have hpip : 0 ≤ warmboundPipeline p := mul_nonneg (le_max_left 0 _) hacv
    have hd1 : p.dealToClose / 100 ≤ 1 := by linarith
    have hmul : warmboundPipeline p * (p.dealToClose / 100) ≤ warmboundPipeline p * 1 :=
      mul_le_mul_of_nonneg_left hd1 hpip
    show warmboundRevenue p ≤ warmboundPipeline p
    simpa [warmboundRevenue] using hmul
  · intro hmt hfr har had hdd hw
    have hdeals := formDeals_nonneg p hmt hfr har had hdd
    have hda : 0 ≤ formDeals p * p.acv := mul_nonneg hdeals hacv
    have h1 : (0:ℚ) ≤ 1 - p.dealWinRate / 100 := by linarith
    have h2 : 0 ≤ (formDeals p * p.acv) * (1 - p.dealWinRate / 100) := mul_nonneg hda h1
    show formRevenue p ≤ formPipeline p
    simp only [formRevenue, formWins, formPipeline]
    nlinarith [h2]
  · intro hmt hfr hcy hrr hrd hw
    have hdemos := reactivationDemos_nonneg p hmt hfr hcy hrr hrd
    have hda : 0 ≤ reactivationDemos p * p.acv := mul_nonneg hdemos hacv
    have h1 : (0:ℚ) ≤ 1 - p.reactivationWinRate / 100 := by linarith
    have h2 : 0 ≤ (reactivationDemos p * p.acv) * (1 - p.reactivationWinRate / 100) :=
      mul_nonneg hda h1
    show reactivationRevenue p ≤ reactivationPipeline p
    simp only [reactivationRevenue, reactivationWins, reactivationPipeline]
    nlinarith [h2]

/-- C6 (witness): the amended theorem applied at the worked-scenario inputs. -/
theorem c6_revenue_le_pipeline_witness :
    (calcROI workedParams).warmbound.revenue ≤ (calcROI workedParams).warmbound.pipeline ∧
    (calcROI workedParams).formAbandonment.revenue
      ≤ (calcROI workedParams).formAbandonment.pipeline ∧
    (calcROI workedParams).reactivation.revenue
      ≤ (calcROI workedParams).reactivation.pipeline := by
  have h := c6_revenue_le_pipeline workedParams (by norm_num [workedParams])
  exact ⟨h.1 (by norm_num [workedParams]),
    h.2.1 (by norm_num [workedParams]) (by norm_num [workedParams])
      (by norm_num [workedParams]) (by norm_num [workedParams])
      (by norm_num [workedParams]) (by norm_num [workedParams]),
    h.2.2 (by norm_num [workedParams]) (by norm_num [workedParams])
      (by norm_num [workedParams]) (by norm_num [workedParams])
      (by norm_num [workedParams]) (by norm_num [workedParams])⟩

-- ══════════════════════ C7: zero-input boundary ═══════════════════════════════

/-- C7: with zero monthly traffic the pipeline and revenue of the Form
Abandonment channel are exactly 0, and with zero TAM the pipeline and revenue
of the Warmbound channel are exactly 0. -/
theorem c7_zero_input_boundary (p : Params) :
    (p.monthlyTraffic = 0 →
      (calcROI p).formAbandonment.pipeline = 0 ∧
      (calcROI p).formAbandonment.revenue = 0) ∧
    (p.tam = 0 →
      (calcROI p).warmbound.pipeline = 0 ∧
      (calcROI p).warmbound.revenue = 0) := by
  constructor
  · intro h
    constructor
    · show formPipeline p = 0
      simp [formPipeline, formDeals, formDemos, abandonedForms, annualFormFills,
        annualTraffic, h]
    · show formRevenue p = 0
      simp [formRevenue, formWins, formDeals, formDemos, abandonedForms,
        annualFormFills, annualTraffic, h]
  · intro h
    have hp : warmboundPipeline p = 0 := by
      simp [warmboundPipeline, warmPipeline, warmAccounts, coldPipeline, h]
    constructor
    · exact hp
    · show warmboundRevenue p = 0
      simp [warmboundRevenue, hp]

/-- C7 (witness): the boundary theorem applied at a concrete vector with
`monthlyTraffic = 0` and `tam = 0`. -/
theorem c7_zero_input_boundary_witness :
    (calcROI pZero).formAbandonment.pipeline = 0 ∧
    (calcROI pZero).warmbound.pipeline = 0 :=
  ⟨((c7_zero_input_boundary pZero).1 rfl).1, ((c7_zero_input_boundary pZero).2 rfl).1⟩

-- ══════════════════════ C8: research endpoint errors ══════════════════════════

/-- C8: the research endpoint returns 400 with an error body when `domain` is
missing; 500 when the provider key is not configured; 500 when the upstream
response is non-success; 500 with the unparsed provider text under `raw` when
the payload cannot be parsed after fence stripping; and it never returns a
success status when the stripped payload fails to parse. -/
theorem c8_research_route_errors :
    (∀ k u, POST none k u = ⟨400, ApiBody.errorMsg ("Domain is required")⟩) ∧
    (∀ d u, d ≠ "" →
      POST (some d) none u = ⟨500, ApiBody.errorMsg ("PERPLEXITY_API_KEY not configured")⟩) ∧
    (∀ d k e, d ≠ "" → k ≠ "" →
      (POST (some d) (some k) (Upstream.notOk e)).status = 500) ∧
    (∀ d k c cits, d ≠ "" → k ≠ "" → jsonParse (stripFences (c.getD (""))) = none →
      POST (some d) (some k) (Upstream.ok c cits)
        = ⟨500, ApiBody.errorRaw ("Failed to parse AI response") (c.getD (""))⟩) ∧
    (∀ d k c cits, (POST (some d) (some k) (Upstream.ok c cits)).status = 200 →
      jsonParse (stripFences (c.getD (""))) ≠ none) := by
  refine ⟨?_, ?_, ?_, ?_, ?_⟩
  · intro k u
    rfl
  · intro d u hd
    simp [POST, hd]
  · intro d k e hd hk
    simp [POST, hd, hk]
  · intro d k c cits hd hk hparse
    simp [POST, hd, hk, hparse]
  · intro d k c cits h hnone
    by_cases hd : d = ""
    · simp [POST, hd] at h
    · by_cases hk : k = ""
      · simp [POST, hd, hk] at h
      · simp [POST, hd, hk, hnone] at h

/-- C8 (witness): the endpoint theorem applied at concrete requests. -/
theorem c8_research_route_errors_witness :
    POST none (some ("k")) (Upstream.ok (some ("x")) none)
      = ⟨400, ApiBody.errorMsg ("Domain is required")⟩ ∧
    POST (some ("acme.com")) none (Upstream.ok (some ("x")) none)
      = ⟨500, ApiBody.errorMsg ("PERPLEXITY_API_KEY not configured")⟩ ∧
    (POST (some ("acme.com")) (some ("k")) (Upstream.notOk ("boom"))).status = 500 ∧
    POST (some ("acme.com")) (some ("k")) (Upstream.ok (some ("oops")) none)
      = ⟨500, ApiBody.errorRaw ("Failed to parse AI response") ("oops")⟩ :=
  ⟨c8_research_route_errors.1 (some ("k")) (Upstream.ok (some ("x")) none),
   c8_research_route_errors.2.1 ("acme.com") (Upstream.ok (some ("x")) none) (by decide),
   c8_research_route_errors.2.2.1 ("acme.com") ("k") ("boom") (by decide) (by decide),
   c8_research_route_errors.2.2.2.1 ("acme.com") ("k") (some ("oops")) none
     (by decide) (by decide) rfl⟩

-- ══════════════════════ C9: formatters ════════════════════════════════════════

/-- String append is associative (helper). -/
lemma strAppendAssoc (a b c : String) : a ++ b ++ c = a ++ (b ++ c) := by
  rcases a with ⟨as⟩
  rcases b with ⟨bs⟩
  rcases c with ⟨cs⟩
  show String.mk (as ++ bs ++ cs) = String.mk (as ++ (bs ++ cs))
  rw [List.append_assoc]

/-- C9: for non-negative `n`, `fmtMoney` renders a value at or above one
million in millions with one decimal place, a value in `[1000, 1000000)` as a
whole number of thousands, and a value below 1000 as rounded whole units with
a dollar prefix; `fmtNum` is identical without the currency symbol; and `pct`
attaches a trailing percent sign to the rendered number. -/
theorem c9_formatters (n : ℚ) (_hn : 0 ≤ n) :
    (1000000 ≤ n → fmtMoney n = "$" ++ jsToFixed1 (n / 1000000) ++ "M") ∧
    (1000 ≤ n → n < 1000000 → fmtMoney n = "$" ++ jsToFixed0 (n / 1000) ++ "K") ∧
    (n < 1000 → fmtMoney n = "$" ++ toLocaleStringInt (jsRound n)) ∧
    fmtMoney n = "$" ++ fmtNum n ∧
    pct n = jsNumToString n ++ "%" := by
  refine ⟨?_, ?_, ?_, ?_, rfl⟩
  · intro h1
    simp only [fmtMoney, if_pos h1]
  · intro h1 h2
    have h3 : ¬ (1000000:ℚ) ≤ n := by linarith
    simp only [fmtMoney, if_neg h3, if_pos h1]
  · intro h1
    have h3 : ¬ (1000000:ℚ) ≤ n := by linarith
    have h4 : ¬ (1000:ℚ) ≤ n := by linarith
    simp only [fmtMoney, if_neg h3, if_neg h4]
  · by_cases h1 : (1000000:ℚ) ≤ n
    · simp only [fmtMoney, fmtNum, if_pos h1]
      rw [strAppendAssoc]
    · by_cases h2 : (1000:ℚ) ≤ n
      · simp only [fmtMoney, fmtNum, if_neg h1, if_pos h2]
        rw [strAppendAssoc]
      · simp only [fmtMoney, fmtNum, if_neg h1, if_neg h2]

/-- C9 (witness): the formatter theorem applied at concrete magnitudes in each
branch. -/
theorem c9_formatters_witness :
    fmtMoney 2500000 = "$" ++ jsToFixed1 (2500000 / 1000000) ++ "M" ∧
    fmtMoney 45000 = "$" ++ jsToFixed0 (45000 / 1000) ++ "K" ∧
    fmtMoney 500 = "$" ++ toLocaleStringInt (jsRound 500) ∧
    fmtMoney 500 = "$" ++ fmtNum 500 ∧
    pct 30 = jsNumToString 30 ++ "%" :=
  ⟨(c9_formatters 2500000 (by norm_num)).1 (by norm_num),
   (c9_formatters 45000 (by norm_num)).2.1 (by norm_num) (by norm_num),
   (c9_formatters 500 (by norm_num)).2.2.1 (by norm_num),
   (c9_formatters 500 (by norm_num)).2.2.2.1,
   (c9_formatters 30 (by norm_num)).2.2.2.2⟩

-- ══════════════════════ C10: loadCache totality ═══════════════════════════════

/-- C10 (counterexample): the stored string `"null"` is valid JSON, so
`loadCache` returns the `JSON.parse` result unvalidated — the JSON `null` value,
which is not a record. -/
theorem c10_counterexample :
    loadCache (some ("null")) = Json.null ∧
    (loadCache (some ("null"))).isObj = false :=
  ⟨rfl, rfl⟩

/-- C10 (amended): `loadCache` is a total function: an absent entry yields the
empty record, a stored string that fails to parse as JSON yields the empty
record (the `catch` branch), and a stored string that parses successfully is
returned as-is without validation — so a non-object JSON value such as `null`
is passed through rather than coerced to a record. -/
theorem c10_loadCache_total (s : String) :
    loadCache none = Json.obj [] ∧
    (jsonParse s = none → loadCache (some s) = Json.obj []) ∧
    (∀ v, jsonParse s = some v → loadCache (some s) = v) := by
  refine ⟨rfl, ?_, ?_⟩
  · intro h
    simp [loadCache, h]
  · intro v h
    simp [loadCache, h]

/-- C10 (witness): the totality theorem applied at concrete stored strings. -/
theorem c10_loadCache_total_witness :
    loadCache none = Json.obj [] ∧
    loadCache (some ("not json")) = Json.obj [] ∧
    loadCache (some ("null")) = Json.null :=
  ⟨(c10_loadCache_total ("not json")).1,
   (c10_loadCache_total ("not json")).2.1 rfl,
   (c10_loadCache_total ("null")).2.2 Json.null rfl⟩
